import Mathlib

set_option maxHeartbeats 1000000

/-!
Shallow embedding of src/scripts/t265_avoidance.py (vision_to_mavros).

The script reads a T265 tracking-camera pose stream and stereo fisheye
frames, transforms the pose into the aeronautical NED frame, computes a
72-sector obstacle distance profile from stereo disparity, and sends the
results to a flight controller at fixed rates.  Python floats are embedded
as real numbers; the uint16 distance array entries as naturals reduced
modulo 2 ^ 16; mutable globals become explicit state passed to the
functions that read or write them.
-/

/-! ### Compass heading reference (att_msg_callback, lines 423-430)

The Python callback holds the global heading_north_yaw (initially None).
Both branches of the if assign value.yaw to it; they differ only in the
text they print.  The state is an Option carrying the stored yaw. -/

/-- One ATTITUDE message arriving at the callback: whatever the stored
heading is (None or already set), it is overwritten with the new yaw. -/
def att_msg_callback (heading_north_yaw : Option ℝ) (yaw : ℝ) : Option ℝ :=
  match heading_north_yaw with
  | none => some yaw
  | some _ => some yaw

/-- Stored heading after a sequence of ATTITUDE samples, starting from the
initial None state (line 501). -/
def heading_after (samples : List ℝ) : Option ℝ :=
  samples.foldl att_msg_callback none

/-! ### Scale factor (lines 78-79 and scale_update, lines 433-437)

scale_update runs float(input(...)) in a loop and assigns the parsed value
to the global scale_factor with no validation.  An accepted operator input
is any successfully parsed float; we model one update as replacing the
stored scale with the typed value. -/

/-- Initial value of the global scale_factor (line 79). -/
def scale_factor_init : ℝ := 1

/-- One iteration of scale_update: the typed float replaces the stored
scale factor unconditionally (line 436). -/
def scale_update_step (scale_factor typed : ℝ) : ℝ := typed

/-- Scale factor after a sequence of accepted operator inputs. -/
def scale_after (inputs : List ℝ) : ℝ :=
  inputs.foldl scale_update_step scale_factor_init

/-! ### Confidence reporting (send_confidence_level_dummy_message, 333-359) -/

/-- Names of the four tracker confidence levels (line 96). -/
def pose_data_confidence_level : List String :=
  ["Failed", "Low", "Medium", "High"]

/-- Default string for an out-of-range index; the device only produces
levels 0-3, where the Python tuple lookup always succeeds. -/
def no_level_name : String := ""

/-- Output of one confidence tick: the numeric dummy message (packed in
VISION_POSITION_DELTA) and the optional edge-triggered STATUSTEXT. -/
structure ConfidenceTick where
  vision_position_delta : Option ℚ
  statustext : Option String

/-- One firing of the confidence task.  data is the latest pose data
(None before the first frame); current_confidence is the last reported
level.  Returns the emitted messages and the new current_confidence. -/
def send_confidence_level_dummy_message (data current_confidence : Option ℕ) :
    ConfidenceTick × Option ℕ :=
  match data with
  | none => (⟨none, none⟩, current_confidence)
  | some tracker_confidence =>
    let numeric : ℚ := tracker_confidence * 100 / 3
    if current_confidence = none ∨ current_confidence ≠ some tracker_confidence then
      (⟨some numeric,
        some ("Tracking confidence: " ++
          pose_data_confidence_level.getD tracker_confidence no_level_name)⟩,
        some tracker_confidence)
    else
      (⟨some numeric, none⟩, current_confidence)

/-- Number of STATUSTEXT notifications emitted over a sequence of ticks,
where the k-th tick sees tracker confidence equal to the k-th list entry. -/
def count_statustext : Option ℕ → List ℕ → ℕ
  | _, [] => 0
  | cur, c :: rest =>
    let step := send_confidence_level_dummy_message (some c) cur
    (if step.1.statustext.isSome then 1 else 0) + count_statustext step.2 rest

/-! ### Distance sensor message (send_distance_sensor_message, 291-309) -/

/-- Fields of the DISTANCE_SENSOR message the task fills in (cm). -/
structure DistanceSensorMsg where
  min_distance : ℕ
  max_distance : ℕ
  current_distance : ℕ
  deriving DecidableEq

/-- Python slice distances[33:38]. -/
def center_slice (distances : List ℕ) : List ℕ := (distances.drop 33).take 5

/-- curr_dist = int(np.mean(distances[33:38])): the integer-truncated mean
of the slice.  Entries are nonnegative integers, so the float mean is
sum/len and int() truncation is floor division. -/
def curr_dist (distances : List ℕ) : ℕ :=
  (center_slice distances).sum / (center_slice distances).length

/-- One firing of the distance task: it always builds and sends a message
(there is no None-check in the Python function). -/
def send_distance_sensor_message (distances : List ℕ) : Option DistanceSensorMsg :=
  some ⟨10, 65, curr_dist distances⟩

/-! ### Vision position message (send_vision_position_message, 312-329)

The function sends only when the global H_aeroRef_aeroBody is not None.
The message position comes from the translation column of the matrix; the
roll/pitch/yaw fields come from tf.euler_from_matrix on the same matrix
(external library; no claim concerns their values, so the embedding keeps
the position fields). -/

/-- Position fields of the VISION_POSITION_ESTIMATE message (meters). -/
structure VisionPositionMsg where
  x : ℝ
  y : ℝ
  z : ℝ

/-- One firing of the pose task: None state means no message. -/
def send_vision_position_message (H_aeroRef_aeroBody : Option (Matrix (Fin 4) (Fin 4) ℝ)) :
    Option VisionPositionMsg :=
  match H_aeroRef_aeroBody with
  | none => none
  | some H => some ⟨H 0 3, H 1 3, H 2 3⟩

/-- Initial distance array: np.zeros((72,), dtype=np.uint16) (line 100). -/
def distances_init : List ℕ := List.replicate 72 0

/-! ### Obstacle-distance message angular layout (lines 273-285) -/

/-- angle_offset passed in the OBSTACLE_DISTANCE message (deg, line 284). -/
def angle_offset : ℝ := -45

/-- increment_f passed in the OBSTACLE_DISTANCE message (deg, line 283). -/
def increment_f : ℝ := 1.25

/-- Nominal angle of sector i, from the message angular layout. -/
def sector_angle (i : ℕ) : ℝ := angle_offset + increment_f * i

/-- Index of the disparity-map line sampled for sector i: the loop reads
points_3D[i * 4, 150] (line 698). -/
def sample_row (i : ℕ) : ℕ := i * 4

/-! ### Helper lemmas -/

lemma att_msg_callback_eq (h : Option ℝ) (yaw : ℝ) :
    att_msg_callback h yaw = some yaw := by
  cases h <;> rfl

lemma count_statustext_replicate_same (a : ℕ) (m : ℕ) :
    count_statustext (some a) (List.replicate m a) = 0 := by
  induction m with
  | zero => rfl
  | succ k ih =>
    rw [List.replicate_succ]
    simp only [count_statustext, send_confidence_level_dummy_message]
    simp [ih]

lemma scale_foldl_pos (l : List ℝ) (s : ℝ) (hs : 0 < s)
    (hl : ∀ v ∈ l, 0 < v) : 0 < l.foldl scale_update_step s := by
  induction l generalizing s with
  | nil => simpa [scale_update_step]
  | cons a t ih =>
    simp only [List.foldl_cons]
    exact ih a (hl a (by simp)) fun v hv => hl v (by simp [hv])

/-! ### Theorems for the claims -/

/-- C1 counterexample: the claim says the stored heading reference equals
the yaw of the first ATTITUDE sample and stays unchanged on subsequent
samples.  With samples of yaw 0 then yaw 1, the stored reference ends at
1, not at the first sample value 0. -/
theorem first_heading_not_latched :
    heading_after [(0 : ℝ), 1] = some 1 ∧ (1 : ℝ) ≠ 0 := by
  constructor
  · rfl
  · norm_num

/-- C1 amended: every ATTITUDE sample overwrites the stored heading
reference, so after any sample sequence the reference used to realign the
navigation pose is the yaw of the most recent sample, not the first. -/
theorem heading_reference_is_latest (prior : List ℝ) (yaw : ℝ) :
    heading_after (prior ++ [yaw]) = some yaw := by
  unfold heading_after
  rw [List.foldl_append]
  simp [att_msg_callback_eq]

/-- C9 counterexample: the operator input path accepts any parsed float
without validation; typing -1 leaves the scale factor at -1 < 0,
violating the claimed strict positivity invariant. -/
theorem scale_factor_negative_after_input :
    scale_after [(-1 : ℝ)] < 0 := by
  norm_num [scale_after, scale_update_step, scale_factor_init]

/-- C9 amended: the scale factor starts at 1 (positive) and remains
strictly positive provided every accepted operator input is positive; the
update path itself performs no validation. -/
theorem scale_factor_pos_of_pos_inputs (inputs : List ℝ)
    (h : ∀ v ∈ inputs, 0 < v) : 0 < scale_after inputs := by
  have h1 : (0 : ℝ) < scale_factor_init := by norm_num [scale_factor_init]
  exact scale_foldl_pos inputs scale_factor_init h1 h

/-- C9 witness: the amended theorem applied to the concrete input list
with the single entry 2. -/
theorem scale_factor_pos_witness :
    (∀ v ∈ [(2 : ℝ)], 0 < v) ∧ 0 < scale_after [(2 : ℝ)] :=
  ⟨by norm_num, scale_factor_pos_of_pos_inputs [(2 : ℝ)] (by norm_num)⟩

/-- C4: starting from a latched confidence level a, a tick sequence that
stays at a for m ticks, changes to b once, and stays at b for n more
ticks emits exactly one STATUSTEXT notification, independent of m and n. -/
theorem confidence_edge_triggered_once (a b m n : ℕ) (hab : a ≠ b) :
    count_statustext (some a)
      (List.replicate m a ++ List.replicate (n + 1) b) = 1 := by
  induction m with
  | zero =>
    rw [List.replicate_zero, List.nil_append, List.replicate_succ]
    simp only [count_statustext, send_confidence_level_dummy_message]
    have hne : some a ≠ some b := by simpa using hab
    simp [hne, count_statustext_replicate_same]
  | succ k ih =>
    rw [List.replicate_succ, List.cons_append]
    simp only [count_statustext, send_confidence_level_dummy_message]
    simp [ih]

/-- C4 witness: the theorem at a = 1 (Low), b = 2 (Medium), with 3 ticks
before the change and 4 after it. -/
theorem confidence_edge_triggered_once_witness :
    (1 : ℕ) ≠ 2 ∧
      count_statustext (some 1)
        (List.replicate 3 1 ++ List.replicate (4 + 1) 2) = 1 :=
  ⟨by norm_num, confidence_edge_triggered_once 1 2 3 4 (by norm_num)⟩

/-! ### Slice lemma for the distance report -/

lemma center_slice_eq (d : List ℕ) (h : d.length = 72) :
    center_slice d =
      [d.getD 33 0, d.getD 34 0, d.getD 35 0, d.getD 36 0, d.getD 37 0] := by
  apply List.ext_getElem
  · simp [center_slice, h]
  · intro n h1 h2
    have hn : n < 5 := by simpa using h2
    interval_cases n <;> simp [center_slice, List.getD_eq_getElem, h]

/-- C5: every distance report carries min range 10 cm, max range 65 cm and
the integer-truncated mean of Distance Profile entries 33 through 37; on
the all-30 profile the reported distance is exactly 30. -/
theorem distance_report_center_mean (d : List ℕ) (h : d.length = 72) :
    send_distance_sensor_message d =
      some ⟨10, 65,
        (d.getD 33 0 + d.getD 34 0 + d.getD 35 0 + d.getD 36 0 + d.getD 37 0) / 5⟩ ∧
    send_distance_sensor_message (List.replicate 72 30) = some ⟨10, 65, 30⟩ := by
  constructor
  · unfold send_distance_sensor_message curr_dist
    rw [center_slice_eq d h]
    simp only [List.sum_cons, List.sum_nil, List.length_cons, List.length_nil, add_zero]
    norm_num [DistanceSensorMsg.mk.injEq]
    omega
  · rfl

/-- C5 witness: the theorem applied to the all-30 profile of length 72. -/
theorem distance_report_center_mean_witness :
    (List.replicate 72 30 : List ℕ).length = 72 ∧
      send_distance_sensor_message (List.replicate 72 30) =
        some ⟨10, 65,
          ((List.replicate 72 30 : List ℕ).getD 33 0 +
            (List.replicate 72 30 : List ℕ).getD 34 0 +
            (List.replicate 72 30 : List ℕ).getD 35 0 +
            (List.replicate 72 30 : List ℕ).getD 36 0 +
            (List.replicate 72 30 : List ℕ).getD 37 0) / 5⟩ :=
  ⟨by simp, (distance_report_center_mean (List.replicate 72 30) (by simp)).1⟩

/-- C3 counterexample: before any frame is processed the distance task
does send a message (built from the all-zero initial array, reporting
current distance 0); the Python function has no None-check, so the claim
that all three tasks perform no send on an uninitialized tick is false. -/
theorem distance_task_sends_before_first_frame :
    send_distance_sensor_message distances_init = some ⟨10, 65, 0⟩ := rfl

/-- C3 amended: on a tick before any frame is processed, the pose task and
the confidence task no-op (and leave state unchanged), while the distance
task sends a DISTANCE_SENSOR message with current distance 0 computed from
the all-zero initial array; none of the three tasks fails (all are total
functions of the state). -/
theorem uninitialized_tick_behavior (cur : Option ℕ) :
    send_vision_position_message none = none ∧
      send_confidence_level_dummy_message none cur = (⟨none, none⟩, cur) ∧
      send_distance_sensor_message distances_init = some ⟨10, 65, 0⟩ :=
  ⟨rfl, rfl, rfl⟩

/-! ### Stereo depth pipeline (lines 528-541, 581-612, 687-698)

The disparity map (after the divide by 16 and the crop of the first
max_disp columns) is embedded as a function from row and column to a real
value.  cv2.reprojectImageTo3D maps pixel (x, y) with disparity d to the
3D point obtained from Q * (x, y, d, 1), dividing by the homogeneous
coordinate.  The numpy store into the uint16 array truncates the float
toward zero (values are nonnegative here) and reduces modulo 2 ^ 16. -/

/-- minDisparity of the StereoSGBM matcher (line 529). -/
def min_disp : ℕ := 16

/-- numDisparities (line 531). -/
def num_disp : ℕ := 112 - min_disp

/-- max_disp = min_disp + num_disp (line 532). -/
def max_disp : ℕ := min_disp + num_disp

/-- stereo_fov_rad = 90 degrees in radians (line 581). -/
noncomputable def stereo_fov_rad : ℝ := 90 * (Real.pi / 180)

/-- stereo_height_px (line 582). -/
def stereo_height_px : ℕ := 300

/-- stereo_focal_px = stereo_height_px/2 / tan(stereo_fov_rad/2) (583). -/
noncomputable def stereo_focal_px : ℝ :=
  (stereo_height_px : ℝ) / 2 / Real.tan (stereo_fov_rad / 2)

/-- stereo_cx = (stereo_height_px - 1)/2 + max_disp (line 595). -/
noncomputable def stereo_cx : ℝ :=
  ((stereo_height_px : ℝ) - 1) / 2 + (max_disp : ℝ)

/-- stereo_cy = (stereo_height_px - 1)/2 (line 596). -/
noncomputable def stereo_cy : ℝ := ((stereo_height_px : ℝ) - 1) / 2

/-- The reprojection matrix Q (lines 609-612). -/
noncomputable def Q_matrix (T0 : ℝ) : Matrix (Fin 4) (Fin 4) ℝ :=
  !![1, 0, 0, -(stereo_cx - (max_disp : ℝ));
     0, 1, 0, -stereo_cy;
     0, 0, 0, stereo_focal_px;
     0, 0, -1 / T0, 0]

/-- cv2.reprojectImageTo3D at one pixel: x = column, y = row, d the
disparity there; the homogeneous result of Q * (x, y, d, 1) is divided by
its last coordinate. -/
noncomputable def reprojectImageTo3D (T0 u v d : ℝ) : Fin 3 → ℝ :=
  let h := (Q_matrix T0).mulVec ![u, v, d, 1]
  ![h 0 / h 3, h 1 / h 3, h 2 / h 3]

/-- np.linalg.norm of a 3D point. -/
noncomputable def npLinalgNorm (p : Fin 3 → ℝ) : ℝ :=
  Real.sqrt (p 0 ^ 2 + p 1 ^ 2 + p 2 ^ 2)

/-- Store of a nonnegative float into a numpy uint16 slot: truncation
toward zero, reduced modulo 2 ^ 16. -/
noncomputable def castUint16 (r : ℝ) : ℕ := ⌊r⌋₊ % 65536

/-- Distance Profile entry i (line 698): the norm of the reprojected
point sampled at points_3D[i * 4, 150], converted from m to cm and stored
into the uint16 array.  T0 is the stereo baseline T[0] (meters). -/
noncomputable def distance_entry (T0 : ℝ) (disparity : ℕ → ℕ → ℝ) (i : ℕ) : ℕ :=
  castUint16
    (npLinalgNorm
      (reprojectImageTo3D T0 150 (sample_row i) (disparity (sample_row i) 150)) * 100)

/-- Distance Profile written by one frame (lines 697-698): entries 0..71. -/
noncomputable def distance_profile (T0 : ℝ) (disparity : ℕ → ℕ → ℝ) : List ℕ :=
  (List.range 72).map (distance_entry T0 disparity)

/-! ### Evaluation lemmas for the stereo pipeline -/

lemma stereo_focal_px_eq : stereo_focal_px = 150 := by
  unfold stereo_focal_px stereo_fov_rad stereo_height_px
  rw [show (90 : ℝ) * (Real.pi / 180) / 2 = Real.pi / 4 by ring, Real.tan_pi_div_four]
  norm_num

lemma reproject_eval (T0 u v d : ℝ) :
    reprojectImageTo3D T0 u v d =
      ![(u - (stereo_cx - (max_disp : ℝ))) / (-1 / T0 * d),
        (v - stereo_cy) / (-1 / T0 * d),
        stereo_focal_px / (-1 / T0 * d)] := by
  unfold reprojectImageTo3D Q_matrix
  funext i
  fin_cases i <;>
    simp [Matrix.mulVec, Matrix.dotProduct, Fin.sum_univ_four] <;> ring

lemma cx_minus_max_disp : stereo_cx - (max_disp : ℝ) = 299 / 2 := by
  unfold stereo_cx max_disp min_disp num_disp stereo_height_px
  norm_num

lemma stereo_cy_eq : stereo_cy = 299 / 2 := by
  unfold stereo_cy stereo_height_px
  norm_num

lemma invalid_disparity_entry_37 :
    distance_entry (-(8 / 125) : ℝ) (fun _ _ => (15 : ℝ)) 37 = 64 := by
  have harg :
      npLinalgNorm (reprojectImageTo3D (-(8 / 125)) 150 (sample_row 37) 15) =
        Real.sqrt (1440160 / 3515625) := by
    rw [reproject_eval]
    unfold npLinalgNorm
    simp only [Matrix.cons_val_zero, Matrix.cons_val_one, Matrix.head_cons,
      Matrix.cons_val_two, Matrix.tail_cons]
    rw [cx_minus_max_disp, stereo_cy_eq, stereo_focal_px_eq]
    congr 1
    norm_num [sample_row]
  have h0 : (0 : ℝ) ≤ 1440160 / 3515625 := by norm_num
  have hlow : (64 : ℝ) ≤ Real.sqrt (1440160 / 3515625) * 100 := by
    have h1 : (64 / 100 : ℝ) ≤ Real.sqrt (1440160 / 3515625) := by
      rw [Real.le_sqrt (by norm_num) h0]
      norm_num
    linarith
  have hhigh : Real.sqrt (1440160 / 3515625 : ℝ) * 100 < 65 := by
    have h1 : Real.sqrt (1440160 / 3515625 : ℝ) < 65 / 100 := by
      rw [Real.sqrt_lt' (by norm_num)]
      norm_num
    linarith
  have hfloor : ⌊Real.sqrt (1440160 / 3515625 : ℝ) * 100⌋₊ = 64 := by
    rw [Nat.floor_eq_iff (by positivity)]
    refine ⟨by exact_mod_cast hlow, ?_⟩
    push_cast
    linarith
  simp only [distance_entry, castUint16]
  rw [harg, hfloor]

/-- C2: with every disparity pixel at 15.0 = min_disp - 1 (the value the
SGBM matcher writes for pixels with no valid disparity, below the minimum
valid threshold 16) and the T265 baseline T0 = -0.064 m, the code
reprojects the invalid disparity like a valid one: sector 37 of the
Distance Profile becomes 64 cm, not the configured maximum reportable
range of 65 cm.  No clamping to max range happens anywhere. -/
theorem invalid_disparity_not_max_range :
    distance_entry (-(8 / 125) : ℝ) (fun _ _ => (15 : ℝ)) 37 = 64 ∧
      distance_entry (-(8 / 125) : ℝ) (fun _ _ => (15 : ℝ)) 37 ≠ 65 := by
  refine ⟨invalid_disparity_entry_37, ?_⟩
  rw [invalid_disparity_entry_37]
  norm_num

/-- C10: every Distance Profile entry is the norm of the sampled
reprojected point, converted from meters to centimeters and stored into a
uint16 slot, hence a nonnegative integer below 65536; a point whose true
distance is 655.36 m (65536 cm) wraps around to 0 modulo 2 ^ 16. -/
theorem distance_entry_uint16_range :
    (∀ (T0 : ℝ) (disparity : ℕ → ℕ → ℝ) (i : ℕ),
        distance_entry T0 disparity i < 65536) ∧
      castUint16 (npLinalgNorm ![(65536 : ℝ) / 100, 0, 0] * 100) = 0 := by
  constructor
  · intro T0 disparity i
    unfold distance_entry castUint16
    exact Nat.mod_lt _ (by norm_num)
  · unfold castUint16 npLinalgNorm
    simp only [Matrix.cons_val_zero, Matrix.cons_val_one, Matrix.head_cons,
      Matrix.cons_val_two, Matrix.tail_cons]
    rw [show ((65536 : ℝ) / 100) ^ 2 + 0 ^ 2 + 0 ^ 2 = (65536 / 100) ^ 2 by ring,
      Real.sqrt_sq (by norm_num), show (65536 : ℝ) / 100 * 100 = 65536 by norm_num]
    norm_num

/-- C6: the Distance Profile has 72 entries after initialization and
after every per-frame overwrite; sector i has nominal angle
-45 + 1.25 * i degrees, which is the angle_offset of -45 deg and
increment_f of 1.25 deg of the OBSTACLE_DISTANCE message; the 72 sampled
lines of the reprojected image are evenly spaced with stride 4. -/
theorem distance_profile_layout :
    distances_init.length = 72 ∧
      (∀ (T0 : ℝ) (disparity : ℕ → ℕ → ℝ),
        (distance_profile T0 disparity).length = 72) ∧
      (∀ i : ℕ, sector_angle i = -45 + 1.25 * i) ∧
      (∀ i : ℕ, sample_row (i + 1) - sample_row i = 4) := by
  refine ⟨rfl, fun T0 disparity => ?_, fun i => ?_, fun i => ?_⟩
  · simp [distance_profile]
  · simp [sector_angle, angle_offset, increment_f]
  · simp only [sample_row]
    omega

/-! ### Pose transform pipeline (lines 216-227 and 639-658)

The mount constants are fixed 4x4 homogeneous transforms.  The
quaternion-to-matrix conversion comes from the transformations library:
quaternion_matrix([w, x, y, z]) returns the identity when the squared norm
is below 4 times the float64 machine epsilon, and otherwise scales the
quaternion by sqrt(2/n) and forms outer products, giving rotation entries
2 q_i q_j / n (inlined below with n written out).  The script then stores
the scaled translation into column 3 (lines 640-642) and composes with
the mount constants (line 645).  In the configured state of the script,
body_offset_enabled = 0 and compass_enabled = 0 (lines 73, 82), so
neither the offset similarity (648-654) nor the compass realign (656-658)
contributes to H_aeroRef_aeroBody. -/

/-- Epsilon guard of transformations.quaternion_matrix: 4 times the
float64 machine epsilon 2 ^ (-52). -/
noncomputable def EPS : ℝ := 4 / 2 ^ 52

/-- transformations.quaternion_matrix for quaternion [w, x, y, z]. -/
noncomputable def quaternion_matrix (w x y z : ℝ) : Matrix (Fin 4) (Fin 4) ℝ :=
  if w * w + x * x + y * y + z * z < EPS then 1
  else
    !![1 - 2 * (y * y + z * z) / (w * w + x * x + y * y + z * z),
       2 * (x * y - z * w) / (w * w + x * x + y * y + z * z),
       2 * (x * z + y * w) / (w * w + x * x + y * y + z * z), 0;
       2 * (x * y + z * w) / (w * w + x * x + y * y + z * z),
       1 - 2 * (x * x + z * z) / (w * w + x * x + y * y + z * z),
       2 * (y * z - x * w) / (w * w + x * x + y * y + z * z), 0;
       2 * (x * z - y * w) / (w * w + x * x + y * y + z * z),
       2 * (y * z + x * w) / (w * w + x * x + y * y + z * z),
       1 - 2 * (x * x + y * y) / (w * w + x * x + y * y + z * z), 0;
       0, 0, 0, 1]

/-- The three translation stores H[0][3], H[1][3], H[2][3] (lines
640-642). -/
def set_translation (H : Matrix (Fin 4) (Fin 4) ℝ) (t0 t1 t2 : ℝ) :
    Matrix (Fin 4) (Fin 4) ℝ :=
  Matrix.of fun i j =>
    if j = 3 then
      if i = 0 then t0 else if i = 1 then t1 else if i = 2 then t2 else H i j
    else H i j

/-- H_aeroRef_T265Ref, identical for every mount (lines 218, 222, 226). -/
def H_aeroRef_T265Ref : Matrix (Fin 4) (Fin 4) ℝ :=
  !![0, 0, -1, 0; 1, 0, 0, 0; 0, -1, 0, 0; 0, 0, 0, 1]

/-- H_T265body_aeroBody for the forward mount: np.linalg.inv of
H_aeroRef_T265Ref (line 219), written out explicitly; the lemma
forward_is_inverse below verifies it is the two-sided inverse. -/
def H_T265body_aeroBody_forward : Matrix (Fin 4) (Fin 4) ℝ :=
  !![0, 1, 0, 0; 0, 0, -1, 0; -1, 0, 0, 0; 0, 0, 0, 1]

/-- H_T265body_aeroBody for the downfacing mount (line 223). -/
def H_T265body_aeroBody_down : Matrix (Fin 4) (Fin 4) ℝ :=
  !![0, 1, 0, 0; 1, 0, 0, 0; 0, 0, -1, 0; 0, 0, 0, 1]

/-- Mount selection (lines 216-227): orientation 1 is downfacing;
orientation 0 and every unrecognized value use the forward constants. -/
def H_T265body_aeroBody (camera_orientation : ℕ) : Matrix (Fin 4) (Fin 4) ℝ :=
  if camera_orientation = 1 then H_T265body_aeroBody_down
  else H_T265body_aeroBody_forward

/-- H_T265Ref_T265body (lines 639-642): rotation from the pose
quaternion, translation scaled by the scale factor. -/
noncomputable def H_T265Ref_T265body (w x y z tx ty tz scale : ℝ) :
    Matrix (Fin 4) (Fin 4) ℝ :=
  set_translation (quaternion_matrix w x y z) (tx * scale) (ty * scale) (tz * scale)

/-- H_aeroRef_aeroBody (line 645) in the configured state (offset and
compass corrections disabled, lines 73 and 82). -/
noncomputable def H_aeroRef_aeroBody_of (camera_orientation : ℕ)
    (w x y z tx ty tz scale : ℝ) : Matrix (Fin 4) (Fin 4) ℝ :=
  H_aeroRef_T265Ref *
    (H_T265Ref_T265body w x y z tx ty tz scale * H_T265body_aeroBody camera_orientation)

/-- Top-left 3x3 rotation block of a homogeneous transform. -/
def rot3 (H : Matrix (Fin 4) (Fin 4) ℝ) : Matrix (Fin 3) (Fin 3) ℝ :=
  Matrix.of fun i j => H i.castSucc j.castSucc

/-- Homogeneous quaternion rotation block (no division): for a unit
quaternion this equals the rotation block of quaternion_matrix. -/
def Rh (w x y z : ℝ) : Matrix (Fin 3) (Fin 3) ℝ :=
  !![w^2 + x^2 - y^2 - z^2, 2*(x*y - z*w), 2*(x*z + y*w);
     2*(x*y + z*w), w^2 - x^2 + y^2 - z^2, 2*(y*z - x*w);
     2*(x*z - y*w), 2*(y*z + x*w), w^2 - x^2 - y^2 + z^2]

/-- Rotation block of H_aeroRef_T265Ref. -/
def A3 : Matrix (Fin 3) (Fin 3) ℝ := !![0, 0, -1; 1, 0, 0; 0, -1, 0]

/-- Rotation block of the forward H_T265body_aeroBody. -/
def B3f : Matrix (Fin 3) (Fin 3) ℝ := !![0, 1, 0; 0, 0, -1; -1, 0, 0]

/-- Rotation block of the downfacing H_T265body_aeroBody. -/
def B3d : Matrix (Fin 3) (Fin 3) ℝ := !![0, 1, 0; 1, 0, 0; 0, 0, -1]

/-- Translation column of the composed Navigation Pose. -/
noncomputable def nav_translation (camera_orientation : ℕ)
    (w x y z tx ty tz scale : ℝ) : Fin 3 → ℝ :=
  fun i => H_aeroRef_aeroBody_of camera_orientation w x y z tx ty tz scale i.castSucc 3

/-- Euclidean magnitude of a translation vector. -/
noncomputable def translation_norm (t : Fin 3 → ℝ) : ℝ :=
  Real.sqrt (t 0 ^ 2 + t 1 ^ 2 + t 2 ^ 2)

/-! ### Geometry lemmas -/

lemma castSucc_zero3 : (0 : Fin 3).castSucc = (0 : Fin 4) := rfl

lemma castSucc_one3 : (1 : Fin 3).castSucc = (1 : Fin 4) := rfl

lemma castSucc_two3 : (2 : Fin 3).castSucc = (2 : Fin 4) := rfl

lemma forward_is_inverse :
    H_aeroRef_T265Ref * H_T265body_aeroBody_forward = 1 ∧
      H_T265body_aeroBody_forward * H_aeroRef_T265Ref = 1 := by
  constructor <;>
    (ext i j; fin_cases i <;> fin_cases j <;>
      simp [H_aeroRef_T265Ref, H_T265body_aeroBody_forward, Matrix.mul_apply,
        Fin.sum_univ_four, Matrix.one_apply, Matrix.vecHead, Matrix.vecTail])

lemma quaternion_matrix_33 (w x y z : ℝ) : quaternion_matrix w x y z 3 3 = 1 := by
  unfold quaternion_matrix
  split_ifs <;> simp [Matrix.one_apply]

lemma quaternion_matrix_row3 (w x y z : ℝ) :
    quaternion_matrix w x y z 3 0 = 0 ∧ quaternion_matrix w x y z 3 1 = 0 ∧
      quaternion_matrix w x y z 3 2 = 0 := by
  unfold quaternion_matrix
  split_ifs <;> refine ⟨?_, ?_, ?_⟩ <;> simp [Matrix.one_apply]

lemma rot3_mul (M N : Matrix (Fin 4) (Fin 4) ℝ) (h0 : N 3 0 = 0) (h1 : N 3 1 = 0)
    (h2 : N 3 2 = 0) : rot3 (M * N) = rot3 M * rot3 N := by
  ext i j
  fin_cases i <;> fin_cases j <;>
    simp [rot3, Matrix.mul_apply, Fin.sum_univ_four, Fin.sum_univ_three, h0, h1, h2,
      castSucc_zero3, castSucc_one3, castSucc_two3]

lemma quaternion_rot3 (w x y z a b c : ℝ) (h : w ^ 2 + x ^ 2 + y ^ 2 + z ^ 2 = 1) :
    rot3 (set_translation (quaternion_matrix w x y z) a b c) = Rh w x y z := by
  have hn : w * w + x * x + y * y + z * z = 1 := by linear_combination h
  have hlt1 : ¬((1 : ℝ) < EPS) := by norm_num [EPS]
  ext i j
  fin_cases i <;> fin_cases j <;>
    (simp [rot3, set_translation, quaternion_matrix, hn, hlt1, Rh, castSucc_zero3,
      castSucc_one3, castSucc_two3]) <;>
    linear_combination -h

lemma Rh_orthogonal (w x y z : ℝ) :
    (Rh w x y z).transpose * Rh w x y z = ((w^2 + x^2 + y^2 + z^2)^2) • 1 := by
  ext i j
  simp only [Matrix.mul_apply, Matrix.transpose_apply, Fin.sum_univ_three,
    Matrix.smul_apply, Matrix.one_apply, smul_eq_mul]
  fin_cases i <;> fin_cases j <;> simp [Rh] <;> ring

lemma Rh_det (w x y z : ℝ) : (Rh w x y z).det = (w^2 + x^2 + y^2 + z^2)^3 := by
  rw [Matrix.det_fin_three]
  simp [Rh]
  ring

lemma rot3_A : rot3 H_aeroRef_T265Ref = A3 := by
  ext i j; fin_cases i <;> fin_cases j <;> rfl

lemma rot3_B (o : ℕ) :
    rot3 (H_T265body_aeroBody o) = if o = 1 then B3d else B3f := by
  by_cases ho : o = 1 <;>
    simp only [H_T265body_aeroBody, ho, if_true, if_false] <;>
    (ext i j; fin_cases i <;> fin_cases j <;> rfl)

lemma A3_orth : A3.transpose * A3 = 1 := by
  ext i j
  simp only [Matrix.mul_apply, Matrix.transpose_apply, Fin.sum_univ_three]
  fin_cases i <;> fin_cases j <;>
    simp [A3, Matrix.one_apply, Matrix.vecHead, Matrix.vecTail]

lemma A3_det : A3.det = 1 := by
  rw [Matrix.det_fin_three]; norm_num [A3]

lemma B3f_orth : B3f.transpose * B3f = 1 := by
  ext i j
  simp only [Matrix.mul_apply, Matrix.transpose_apply, Fin.sum_univ_three]
  fin_cases i <;> fin_cases j <;>
    simp [B3f, Matrix.one_apply, Matrix.vecHead, Matrix.vecTail]

lemma B3f_det : B3f.det = 1 := by
  rw [Matrix.det_fin_three]; norm_num [B3f]

lemma B3d_orth : B3d.transpose * B3d = 1 := by
  ext i j
  simp only [Matrix.mul_apply, Matrix.transpose_apply, Fin.sum_univ_three]
  fin_cases i <;> fin_cases j <;>
    simp [B3d, Matrix.one_apply, Matrix.vecHead, Matrix.vecTail]

lemma B3d_det : B3d.det = 1 := by
  rw [Matrix.det_fin_three]; norm_num [B3d]

lemma Hbody_row3 (o : ℕ) :
    H_T265body_aeroBody o 3 0 = 0 ∧ H_T265body_aeroBody o 3 1 = 0 ∧
      H_T265body_aeroBody o 3 2 = 0 := by
  by_cases ho : o = 1 <;>
    simp [H_T265body_aeroBody, ho, H_T265body_aeroBody_down,
      H_T265body_aeroBody_forward, Matrix.vecHead, Matrix.vecTail]

lemma rot3_decomp (o : ℕ) (w x y z tx ty tz s : ℝ)
    (h : w ^ 2 + x ^ 2 + y ^ 2 + z ^ 2 = 1) :
    rot3 (H_aeroRef_aeroBody_of o w x y z tx ty tz s) =
      A3 * Rh w x y z * (if o = 1 then B3d else B3f) := by
  obtain ⟨hb0, hb1, hb2⟩ := Hbody_row3 o
  obtain ⟨hq0, hq1, hq2⟩ := quaternion_matrix_row3 w x y z
  have hm0 : H_T265Ref_T265body w x y z tx ty tz s 3 0 = 0 := by
    simpa [H_T265Ref_T265body, set_translation] using hq0
  have hm1 : H_T265Ref_T265body w x y z tx ty tz s 3 1 = 0 := by
    simpa [H_T265Ref_T265body, set_translation] using hq1
  have hm2 : H_T265Ref_T265body w x y z tx ty tz s 3 2 = 0 := by
    simpa [H_T265Ref_T265body, set_translation] using hq2
  unfold H_aeroRef_aeroBody_of
  rw [← Matrix.mul_assoc, rot3_mul _ _ hb0 hb1 hb2, rot3_mul _ _ hm0 hm1 hm2,
    rot3_A, rot3_B]
  rw [H_T265Ref_T265body, quaternion_rot3 w x y z _ _ _ h]

lemma nav_translation_eq (o : ℕ) (w x y z tx ty tz s : ℝ) :
    nav_translation o w x y z tx ty tz s = ![-(tz * s), tx * s, -(ty * s)] := by
  funext i
  have h33 := quaternion_matrix_33 w x y z
  by_cases ho : o = 1 <;>
    fin_cases i <;>
      simp [nav_translation, H_aeroRef_aeroBody_of, H_T265Ref_T265body,
        H_T265body_aeroBody, H_T265body_aeroBody_forward, H_T265body_aeroBody_down,
        H_aeroRef_T265Ref, set_translation, Matrix.mul_apply, Fin.sum_univ_four,
        castSucc_zero3, castSucc_one3, castSucc_two3, ho, h33]

/-- C7: for any mount orientation and unit-quaternion pose sample, with
the offset and compass corrections in their configured (disabled) state,
doubling the scale factor doubles the Euclidean magnitude of the
Navigation Pose translation. -/
theorem scale_doubling_doubles_translation (o : ℕ) (w x y z tx ty tz s : ℝ)
    (h : w ^ 2 + x ^ 2 + y ^ 2 + z ^ 2 = 1) :
    translation_norm (nav_translation o w x y z tx ty tz (2 * s)) =
      2 * translation_norm (nav_translation o w x y z tx ty tz s) := by
  rw [nav_translation_eq, nav_translation_eq]
  unfold translation_norm
  simp only [Matrix.cons_val_zero, Matrix.cons_val_one, Matrix.head_cons,
    Matrix.cons_val_two, Matrix.tail_cons]
  rw [show (-(tz * (2 * s))) ^ 2 + (tx * (2 * s)) ^ 2 + (-(ty * (2 * s))) ^ 2 =
      4 * ((-(tz * s)) ^ 2 + (tx * s) ^ 2 + (-(ty * s)) ^ 2) by ring]
  rw [Real.sqrt_mul (by norm_num) _]
  rw [show Real.sqrt 4 = 2 by
    rw [show (4 : ℝ) = 2 ^ 2 by norm_num, Real.sqrt_sq (by norm_num)]]

/-- C7 witness: the theorem at the forward mount, identity quaternion,
translation (1, 2, 3) and scale 5. -/
theorem scale_doubling_doubles_translation_witness :
    (1 : ℝ) ^ 2 + 0 ^ 2 + 0 ^ 2 + 0 ^ 2 = 1 ∧
      translation_norm (nav_translation 0 1 0 0 0 1 2 3 (2 * 5)) =
        2 * translation_norm (nav_translation 0 1 0 0 0 1 2 3 5) :=
  ⟨by norm_num, scale_doubling_doubles_translation 0 1 0 0 0 1 2 3 5 (by norm_num)⟩

/-- C8: for every mount orientation (downfacing, forward, or the forward
fallback for unrecognized values) and every unit-quaternion pose sample,
the rotation block of the composed Navigation Pose transform is
orthonormal with determinant 1. -/
theorem mount_transform_rigid (o : ℕ) (w x y z tx ty tz s : ℝ)
    (h : w ^ 2 + x ^ 2 + y ^ 2 + z ^ 2 = 1) :
    (rot3 (H_aeroRef_aeroBody_of o w x y z tx ty tz s)).transpose *
        rot3 (H_aeroRef_aeroBody_of o w x y z tx ty tz s) = 1 ∧
      (rot3 (H_aeroRef_aeroBody_of o w x y z tx ty tz s)).det = 1 := by
  have hR : (Rh w x y z).transpose * Rh w x y z = 1 := by
    rw [Rh_orthogonal, h]; norm_num
  have hRdet : (Rh w x y z).det = 1 := by
    rw [Rh_det, h]; norm_num
  have hB_orth :
      (if o = 1 then B3d else B3f).transpose * (if o = 1 then B3d else B3f) = 1 := by
    by_cases ho : o = 1 <;> simp [ho, B3d_orth, B3f_orth]
  have hB_det : (if o = 1 then B3d else B3f).det = 1 := by
    by_cases ho : o = 1 <;> simp [ho, B3d_det, B3f_det]
  rw [rot3_decomp o w x y z tx ty tz s h]
  constructor
  · rw [Matrix.transpose_mul, Matrix.transpose_mul]
    simp only [Matrix.mul_assoc]
    rw [← Matrix.mul_assoc A3.transpose A3, A3_orth, Matrix.one_mul]
    rw [← Matrix.mul_assoc (Rh w x y z).transpose (Rh w x y z), hR, Matrix.one_mul]
    exact hB_orth
  · rw [Matrix.det_mul, Matrix.det_mul, A3_det, hRdet, hB_det]
    norm_num

/-- C8 witness: the theorem at both supported mounts with the identity
quaternion, translation (1, 2, 3) and scale 1. -/
theorem mount_transform_rigid_witness :
    ((1 : ℝ) ^ 2 + 0 ^ 2 + 0 ^ 2 + 0 ^ 2 = 1) ∧
      ((rot3 (H_aeroRef_aeroBody_of 0 1 0 0 0 1 2 3 1)).transpose *
          rot3 (H_aeroRef_aeroBody_of 0 1 0 0 0 1 2 3 1) = 1 ∧
        (rot3 (H_aeroRef_aeroBody_of 0 1 0 0 0 1 2 3 1)).det = 1) ∧
      ((rot3 (H_aeroRef_aeroBody_of 1 1 0 0 0 1 2 3 1)).transpose *
          rot3 (H_aeroRef_aeroBody_of 1 1 0 0 0 1 2 3 1) = 1 ∧
        (rot3 (H_aeroRef_aeroBody_of 1 1 0 0 0 1 2 3 1)).det = 1) :=
  ⟨by norm_num, mount_transform_rigid 0 1 0 0 0 1 2 3 1 (by norm_num),
    mount_transform_rigid 1 1 0 0 0 1 2 3 1 (by norm_num)⟩
